import Mathlib

/-
Verification of docs-server (src/main.rs), a live-reload HTTP server for
rustdoc.  The program resolves cargo metadata, picks a documentation target,
runs one initial `cargo doc`, spawns a watcher task that reruns `cargo doc`
on filesystem events, and serves the generated docs over HTTP with a root
redirect.  The definitions below are a shallow embedding of main.rs; each
doc comment names the lines of main.rs that the definition embeds.
-/

namespace DocsServer

/-- Kind of a filesystem notification, mirroring notify::EventKind
(Any, Access, Create, Modify, Remove, Other).  The constructor payloads of
the Rust enum are never inspected by main.rs (the match at main.rs:158-163
uses wildcard payloads), so they are omitted. -/
inductive EventKind where
  | any
  | access
  | create
  | modify
  | remove
  | other
deriving DecidableEq

/-- A filesystem notification (notify::Event): a kind plus affected paths.
main.rs only ever inspects the kind. -/
structure Event where
  kind : EventKind
  paths : List String
deriving DecidableEq

/-- One message received from the mpsc channel in the watcher loop
(main.rs:155): a notify::Result, either an event or a watch error. -/
inductive WatchMsg where
  | ok (ev : Event)
  | err (msg : String)
deriving DecidableEq

/-- The event filter of main.rs:158-163: Create, Modify and Remove fall
through to the rebuild; every other kind hits the `_ => continue` arm. -/
def interesting : EventKind → Bool
  | .create => true
  | .modify => true
  | .remove => true
  | _ => false

/-- Whether a channel message leads to a rebuild: an Ok event with an
interesting kind does; an Err message is only logged (main.rs:177-179). -/
def interestingMsg : WatchMsg → Bool
  | .ok ev => interesting ev.kind
  | .err _ => false

/-- Outcome of one `Command::new("cargo") ... .output()` call
(main.rs:165-175 and main.rs:124-134): either the process was spawned and
ran to completion with some exit code (`output()` returns Ok regardless of
the exit status), or it could not be spawned at all (`output()` returns
Err, and the `.expect` panics). -/
inductive BuildOutcome where
  | completed (exitCode : Nat)
  | spawnFailed (msg : String)

/-- The watcher loop body of main.rs:155-181, run over the contents of the
mpsc channel.  `oracle n` is the outcome of the (n+1)-th rebuild attempt.
Per message: an Err is logged and the loop continues; an Ok event with a
non-interesting kind hits `continue`; an interesting event runs
`Command::output().expect("Failed to run cargo doc")` synchronously — a
spawn failure makes the `.expect` panic, which ends the loop (modelled as
`Except.error` carrying the panic message), while a completed run has its
exit status ignored and the loop moves to the next queued message.  The
result counts completed rebuilds. -/
def watchLoop (oracle : Nat → BuildOutcome) : List WatchMsg → Nat → Except String Nat
  | [], builds => Except.ok builds
  | msg :: rest, builds =>
    match msg with
    | .err _ => watchLoop oracle rest builds
    | .ok ev =>
      if interesting ev.kind then
        match oracle builds with
        | .spawnFailed _ => Except.error ("Failed to run `cargo doc`")
        | .completed _ => watchLoop oracle rest (builds + 1)
      else
        watchLoop oracle rest builds

/-- Build oracle for runs where every `cargo doc` spawn succeeds. -/
def successOracle : Nat → BuildOutcome := fun _ => BuildOutcome.completed 0

/-- Last index at which character c occurs in s, embedding str::rfind
(main.rs:81) at character granularity: the byte offset returned by rfind is
the UTF-8 length of the prefix before the final occurrence of c, so
character positions and the source's byte positions are in exact
correspondence (every index rfind can return lies on a char boundary). -/
def rfindIdx (s : List Char) (c : Char) : Option Nat :=
  match s with
  | [] => none
  | a :: rest =>
    match rfindIdx rest c with
    | some i => some (i + 1)
    | none => if a = c then some 0 else none

/-- Embedding of split_once_last (main.rs:80-85).  The source splits the
byte string at the byte index of the last occurrence of c and then skips
c.len_utf8() bytes; at character granularity that is exactly `take idx` and
`drop (idx + 1)`, for separators of any UTF-8 width. -/
def split_once_last (s : List Char) (c : Char) : Option (List Char × List Char) :=
  (rfindIdx s c).map fun idx => (s.take idx, s.drop (idx + 1))

/-- A cargo target of the resolved package (cargo_metadata::Target), reduced
to what main.rs:115-120 consumes: its name and the results of the is_lib()
and is_bin() kind predicates. -/
structure Target where
  name : String
  is_lib : Bool
  is_bin : Bool
deriving DecidableEq

/-- Target selection of main.rs:115-120:
`targets.iter().find(is_lib).or(targets.iter().find(is_bin)).or(targets.first())`,
with the trailing `.expect("This crate has no targets!")` modelled by
leaving the result as an Option (none is the panic case). -/
def selectTarget (targets : List Target) : Option Target :=
  ((targets.find? fun t => t.is_lib).or
    (targets.find? fun t => t.is_bin)).or
    targets.head?

/-- Observable steps of the main task (main.rs:92-218) up to the point
where the HTTP server task is spawned. -/
inductive MainAction where
  | getMetadata
  | selectDocTarget
  | runInitialBuild
  | panicAbort (msg : String)
  | spawnWatcherTask
  | bindListener
  | startServer
deriving DecidableEq

/-- The sequence of observable main-task steps, as a function of the
outcome of the initial `cargo doc` (main.rs:124-134) and of the
TcpListener::bind result (main.rs:199-201).  A spawn failure of the initial
build panics main via `.expect("Failed to run cargo doc")` before anything
else happens; a completed initial build (any exit code — the Output is
discarded) is followed by spawning the watcher task, binding, and starting
the server; a bind failure panics main via
`.expect("Could not bind to address!")`. -/
def mainActions (initialBuild : BuildOutcome) (bindResult : Except String Unit) :
    List MainAction :=
  [MainAction.getMetadata, MainAction.selectDocTarget, MainAction.runInitialBuild] ++
  match initialBuild with
  | .spawnFailed _ => [MainAction.panicAbort ("Failed to run `cargo doc`")]
  | .completed _ =>
    [MainAction.spawnWatcherTask, MainAction.bindListener] ++
    match bindResult with
    | .error _ => [MainAction.panicAbort ("Could not bind to address!")]
    | .ok _ => [MainAction.startServer]

/-- Fate of the whole process shortly after startup. -/
inductive ProcResult where
  | aborted (msg : String)
  | running (watcherTaskAlive : Bool)
deriving DecidableEq

/-- Process-level control flow of main.rs:92-218.  The watcher setup
(notify::recommended_watcher and watcher.watch, main.rs:141-153) runs
inside `tokio::spawn` at main.rs:138 and its JoinHandle is discarded, so a
panic of either `.expect` there ends only the watcher task: the runtime
catches the panic and main proceeds to bind and serve regardless.  Only a
spawn failure of the initial build or a bind failure panics the main task
and aborts the process. -/
def mainFlow (initialBuild : BuildOutcome) (watchSetup : Except String Unit)
    (bindResult : Except String Unit) : ProcResult :=
  match initialBuild with
  | .spawnFailed _ => ProcResult.aborted ("Failed to run `cargo doc`")
  | .completed _ =>
    let watcherAlive :=
      match watchSetup with
      | .ok _ => true
      | .error _ => false
    match bindResult with
    | .error _ => ProcResult.aborted ("Could not bind to address!")
    | .ok _ => ProcResult.running watcherAlive

/-- Fate of one background task after startup. -/
inductive TaskFate where
  | runningForever
  | panicked (msg : String)
  | finished
deriving DecidableEq

/-- Whether a background task is still running. -/
def taskAlive : TaskFate → Bool
  | .runningForever => true
  | _ => false

/-- Final observable state of the process. -/
inductive FinalState where
  | stillRunning (watcherTaskAlive : Bool)
  | abortedWith (msg : String)
  | exitedNormally
deriving DecidableEq

/-- What happens to the process after startup, as a function of the fates
of the two background tasks.  main.rs:205-218 awaits only the HTTP server
task's handle: `handle.await.expect("Documentation server task failed!")`,
so a panic of the server task aborts the process with that message and a
normal return of the server task lets main return.  The watcher task's
JoinHandle (main.rs:138) is discarded and never awaited, so its fate is
never observed by the main task. -/
def processAfterStartup (watcherFate serverFate : TaskFate) : FinalState :=
  match serverFate with
  | .runningForever => FinalState.stillRunning (taskAlive watcherFate)
  | .panicked _ => FinalState.abortedWith ("Documentation server task failed!")
  | .finished => FinalState.exitedNormally

/-- An HTTP response of the docs Router (main.rs:186-191): either the
permanent redirect produced by the `/` route or a static-file lookup
delegated to the ServeDir fallback. -/
inductive HttpResponse where
  | permanentRedirect (location : String)
  | serveDirLookup (path : String)
deriving DecidableEq

/-- The Router of main.rs:186-191.  The `/` route's closure captured
`target` by move at startup and answers
`Redirect::permanent(format!("/\x7b\x7d/", target.name))`; every other path
falls back to ServeDir.  `rebuildsCompleted` records how many rebuilds have
finished by the time the request arrives; the handler has no access to it
(the closure owns only the startup-resolved target), which the theorems
make explicit. -/
def handleRequest (targetName : String) (rebuildsCompleted : Nat) (path : String) :
    HttpResponse :=
  if path = "/" then HttpResponse.permanentRedirect ("/" ++ targetName ++ "/")
  else HttpResponse.serveDirLookup path

/-- Whether the single watcher task is between builds (reading the channel)
or blocked inside a synchronous `Command::output()` call. -/
inductive Phase where
  | idle
  | building
deriving DecidableEq

/-- Global state for the build-concurrency analysis: the messages queued in
the mpsc channel, the phase of the watcher task, and the number of `cargo
doc` processes this program currently has running. -/
structure SysState where
  queue : List WatchMsg
  phase : Phase
  activeBuilds : Nat
deriving DecidableEq

/-- State at the start of execution: main.rs:124-134 runs the initial
`cargo doc` synchronously before the watcher task or the server exists, so
one build is in flight and no message has been delivered. -/
def initState : SysState :=
  { queue := [], phase := Phase.building, activeBuilds := 1 }

/-- Interleaved steps of the system, following main.rs:155-181.  The
notification subsystem may deliver a message to the channel at any time
(also while a build runs).  The watcher task, when idle, takes the next
message and either starts one build (interesting event — the synchronous
`output()` call moves it to the building phase) or drops it (other kinds
and watch errors).  A build in flight finishes, returning the task to the
loop head.  Because the build call is synchronous inside the single watcher
task, no message can be consumed while the phase is building. -/
inductive Step : SysState → SysState → Prop where
  | deliver (s : SysState) (m : WatchMsg) :
      Step s { s with queue := s.queue ++ [m] }
  | startBuild (m : WatchMsg) (rest : List WatchMsg) (a : Nat)
      (h : interestingMsg m = true) :
      Step ⟨m :: rest, Phase.idle, a⟩ ⟨rest, Phase.building, a + 1⟩
  | skipMsg (m : WatchMsg) (rest : List WatchMsg) (a : Nat)
      (h : interestingMsg m = false) :
      Step ⟨m :: rest, Phase.idle, a⟩ ⟨rest, Phase.idle, a⟩
  | finishBuild (q : List WatchMsg) (a : Nat) :
      Step ⟨q, Phase.building, a⟩ ⟨q, Phase.idle, a - 1⟩

/-- States reachable from the start of execution. -/
inductive Reachable : SysState → Prop where
  | init : Reachable initState
  | step {s t : SysState} : Reachable s → Step s t → Reachable t

/-- Number of builds the watcher task has in flight in a given phase. -/
def phaseBuilds : Phase → Nat
  | .idle => 0
  | .building => 1

/-- t is the first element of l satisfying p: p holds of t and t is
preceded only by elements not satisfying p. -/
def firstWith (p : Target → Bool) (l : List Target) (t : Target) : Prop :=
  p t = true ∧ ∃ l₁ l₂, l = l₁ ++ t :: l₂ ∧ ∀ u ∈ l₁, p u = false

/-- rfindIdx returns none exactly when the character does not occur. -/
lemma rfindIdx_eq_none (s : List Char) (c : Char) : rfindIdx s c = none ↔ c ∉ s := by
  induction s with
  | nil => simp [rfindIdx]
  | cons a rest ih =>
    rw [rfindIdx]
    cases h : rfindIdx rest c with
    | some i =>
      simp only []
      constructor
      · intro hc; cases hc
      · intro hmem
        exfalso
        have hcr : c ∉ rest := fun hr => hmem (List.mem_cons_of_mem _ hr)
        have := ih.mpr hcr
        rw [this] at h
        cases h
    | none =>
      have hcr : c ∉ rest := ih.mp h
      by_cases hac : a = c
      · subst hac
        simp [hcr]
      · simp [hac, hcr, Ne.symm hac]

/-- A successful rfindIdx points at the last occurrence: the string
decomposes around the found index and the character does not occur after
it. -/
lemma rfindIdx_spec (c : Char) : ∀ (s : List Char) (i : Nat), rfindIdx s c = some i →
    s.take i ++ c :: s.drop (i + 1) = s ∧ c ∉ s.drop (i + 1) := by
  intro s
  induction s with
  | nil => intro i h; cases h
  | cons a rest ih =>
    intro i h
    rw [rfindIdx] at h
    cases hr : rfindIdx rest c with
    | some j =>
      rw [hr] at h
      cases h
      obtain ⟨h1, h2⟩ := ih j hr
      constructor
      · simpa [List.take_succ_cons, List.drop_succ_cons] using congrArg (a :: ·) h1
      · simpa [List.drop_succ_cons] using h2
    | none =>
      rw [hr] at h
      by_cases hac : a = c
      · subst hac
        simp at h
        subst h
        exact ⟨by simp, (rfindIdx_eq_none rest a).mp hr⟩
      · simp [hac] at h

end DocsServer

namespace DocsServer

/-- C10: split_once_last s c returns none exactly when c does not occur in
s; otherwise it returns (left, right) with left ++ c :: right = s and c not
occurring in right, i.e. the split is at the last occurrence.  The
embedding works at character granularity, so the statement covers
multi-byte separators (the source's byte arithmetic via len_utf8
corresponds to dropping exactly one character). -/
theorem c10_split_once_last_spec (s : List Char) (c : Char) :
    (split_once_last s c = none ↔ c ∉ s)
    ∧ ∀ l r, split_once_last s c = some (l, r) → l ++ c :: r = s ∧ c ∉ r := by
  constructor
  · rw [split_once_last]
    cases h : rfindIdx s c with
    | some i =>
      simp only [Option.map_some']
      constructor
      · intro hc; cases hc
      · intro hmem
        exfalso
        obtain ⟨h1, _⟩ := rfindIdx_spec c s i h
        exact hmem (by rw [← h1]; simp)
    | none =>
      simp only [Option.map_none']
      simpa using (rfindIdx_eq_none s c).mp h
  · intro l r hlr
    rw [split_once_last] at hlr
    cases h : rfindIdx s c with
    | none => rw [h] at hlr; cases hlr
    | some i =>
      rw [h] at hlr
      simp only [Option.map_some', Option.some.injEq, Prod.mk.injEq] at hlr
      obtain ⟨hl, hr2⟩ := hlr
      subst hl
      subst hr2
      exact rfindIdx_spec c s i h

/-- Witness for C10 at a concrete multi-byte input: splitting
"aébéc" at the last 'é'. -/
theorem c10_split_once_last_spec_witness :
    ['a', 'é', 'b'] ++ 'é' :: ['c'] = ['a', 'é', 'b', 'é', 'c'] ∧ 'é' ∉ ['c'] :=
  (c10_split_once_last_spec ['a', 'é', 'b', 'é', 'c'] 'é').2 ['a', 'é', 'b'] ['c'] rfl

/-- C1 counterexample: two interesting events queued while a build is in
flight (the loop is blocked inside the synchronous `output()` call, so the
messages wait in the unbounded mpsc channel) lead to two additional builds,
not one: there is no coalescing in main.rs:155-181. -/
theorem c1_debounce_counterexample :
    watchLoop successOracle
      [WatchMsg.ok ⟨EventKind.modify, []⟩, WatchMsg.ok ⟨EventKind.modify, []⟩] 0
      = Except.ok 2 ∧ (2 : Nat) ≠ 1 :=
  ⟨rfl, by decide⟩

/-- C1 amended: every interesting event delivered to the watcher loop
produces its own build — a queue of N interesting messages yields exactly N
further builds (the channel queues events; nothing collapses them). -/
theorem c1_one_build_per_event (evs : List WatchMsg) (builds : Nat)
    (h : ∀ m ∈ evs, interestingMsg m = true) :
    watchLoop successOracle evs builds = Except.ok (builds + evs.length) := by
  induction evs generalizing builds with
  | nil => simp [watchLoop]
  | cons m rest ih =>
    have hm : interestingMsg m = true := h m (List.mem_cons_self m rest)
    have hrest : ∀ x ∈ rest, interestingMsg x = true :=
      fun x hx => h x (List.mem_cons_of_mem _ hx)
    cases m with
    | err e => simp [interestingMsg] at hm
    | ok ev =>
      have hk : interesting ev.kind = true := hm
      rw [watchLoop]
      simp only [hk, if_true, successOracle]
      rw [ih (builds + 1) hrest]
      have harith : builds + 1 + rest.length = builds + (rest.length + 1) := by omega
      simp [harith]

/-- Witness for C1's amended statement: two queued interesting events give
two builds. -/
theorem c1_one_build_per_event_witness :
    watchLoop successOracle
      [WatchMsg.ok ⟨EventKind.modify, []⟩, WatchMsg.ok ⟨EventKind.create, []⟩] 0
      = Except.ok (0 + 2) :=
  c1_one_build_per_event
    [WatchMsg.ok ⟨EventKind.modify, []⟩, WatchMsg.ok ⟨EventKind.create, []⟩] 0 (by decide)

/-- C2 counterexample: when `cargo doc` cannot be spawned for a triggered
rebuild, `.expect` panics and the watch loop stops — the second queued
event is never processed, so the loop does not continue running as the
claim states. -/
theorem c2_spawn_failure_counterexample :
    watchLoop (fun _ => BuildOutcome.spawnFailed ("No such file or directory"))
      [WatchMsg.ok ⟨EventKind.modify, []⟩, WatchMsg.ok ⟨EventKind.modify, []⟩] 0
      = Except.error ("Failed to run `cargo doc`")
    ∧ (Except.error ("Failed to run `cargo doc`") : Except String Nat) ≠ Except.ok 2 :=
  ⟨rfl, fun h => Except.noConfusion h⟩

/-- C2 amended: a rebuild whose generator process runs but exits with any
status (zero or not) is tolerated silently and the loop continues with the
next message; a rebuild whose generator cannot be spawned panics the
watcher task and the watch loop stops, while the process itself stays
alive because the watcher task's handle is discarded. -/
theorem c2_build_failure_behaviour :
    (∀ (oracle : Nat → BuildOutcome) (ev : Event) (rest : List WatchMsg)
        (builds code : Nat),
        interesting ev.kind = true → oracle builds = BuildOutcome.completed code →
        watchLoop oracle (WatchMsg.ok ev :: rest) builds = watchLoop oracle rest (builds + 1))
    ∧ (∀ (oracle : Nat → BuildOutcome) (ev : Event) (rest : List WatchMsg)
        (builds : Nat) (m : String),
        interesting ev.kind = true → oracle builds = BuildOutcome.spawnFailed m →
        watchLoop oracle (WatchMsg.ok ev :: rest) builds
          = Except.error ("Failed to run `cargo doc`"))
    ∧ ∀ m : String,
        processAfterStartup (TaskFate.panicked m) TaskFate.runningForever
          = FinalState.stillRunning false := by
  refine ⟨?_, ?_, ?_⟩
  · intro oracle ev rest builds code hint hor
    rw [watchLoop]
    simp [hint, hor]
  · intro oracle ev rest builds m hint hor
    rw [watchLoop]
    simp [hint, hor]
  · intro m
    rfl

/-- Witness for C2's amended statement: a build that completes with the
non-zero exit status 101 does not stop the loop. -/
theorem c2_build_failure_behaviour_witness :
    watchLoop (fun _ => BuildOutcome.completed 101) [WatchMsg.ok ⟨EventKind.modify, []⟩] 0
      = watchLoop (fun _ => BuildOutcome.completed 101) [] 1 :=
  c2_build_failure_behaviour.1 (fun _ => BuildOutcome.completed 101)
    ⟨EventKind.modify, []⟩ [] 0 101 rfl rfl

/-- C6: an event whose kind is not created, modified or removed hits the
`_ => continue` arm: no build is invoked and the rest of the run is as if
the event had never been delivered (the loop has no other state — in
particular no pending-rebuild state exists to be touched). -/
theorem c6_noninteresting_noop (oracle : Nat → BuildOutcome) (k : EventKind)
    (paths : List String) (rest : List WatchMsg) (builds : Nat)
    (h : interesting k = false) :
    watchLoop oracle (WatchMsg.ok ⟨k, paths⟩ :: rest) builds
      = watchLoop oracle rest builds := by
  rw [watchLoop]
  simp [h]

/-- Witness for C6 at an access event. -/
theorem c6_noninteresting_noop_witness :
    watchLoop successOracle [WatchMsg.ok ⟨EventKind.access, []⟩] 0
      = watchLoop successOracle [] 0 :=
  c6_noninteresting_noop successOracle EventKind.access [] [] 0 rfl

/-- C3: evaluation of the process-level flow at the failing input.  When
the watch cannot be established (and the initial build completed and the
bind succeeds), the `.expect("Failed to watch src directory")` panic
happens inside the detached task spawned at main.rs:138, so the process is
left running with only the HTTP server alive instead of aborting. -/
theorem c3_watch_setup_failure_not_fatal :
    mainFlow (BuildOutcome.completed 0) (Except.error ("Failed to watch src directory"))
      (Except.ok ()) = ProcResult.running false
    ∧ ProcResult.running false ≠ ProcResult.aborted ("Failed to watch src directory") :=
  ⟨rfl, fun h => ProcResult.noConfusion h⟩

/-- C4 counterexample: the watcher task has terminated by panicking while
the server task runs on, and the process keeps running rather than
terminating — the watcher's JoinHandle was discarded at main.rs:138, so its
termination is silently tolerated. -/
theorem c4_watcher_termination_counterexample :
    processAfterStartup (TaskFate.panicked ("Failed to watch src directory"))
      TaskFate.runningForever = FinalState.stillRunning false
    ∧ FinalState.stillRunning false
        ≠ FinalState.abortedWith ("Documentation server task failed!") :=
  ⟨rfl, fun h => FinalState.noConfusion h⟩

/-- C4 amended: a panic of the HTTP server task aborts the whole process
with the descriptive failure of main.rs:218, whatever the watcher task is
doing; termination of the watcher task by panic is silently tolerated and
the process keeps running with only the server alive. -/
theorem c4_server_fatal_watcher_tolerated (watcherFate : TaskFate) (m : String) :
    processAfterStartup watcherFate (TaskFate.panicked m)
      = FinalState.abortedWith ("Documentation server task failed!")
    ∧ processAfterStartup (TaskFate.panicked m) TaskFate.runningForever
      = FinalState.stillRunning false :=
  ⟨rfl, rfl⟩

/-- In every reachable state the number of builds in flight is determined
by the watcher task's phase: zero when it is reading the channel, one while
it is blocked in the synchronous `output()` call.  This holds because the
single watcher task consumes no message while a build runs. -/
lemma reachable_activeBuilds_eq (s : SysState) (h : Reachable s) :
    s.activeBuilds = phaseBuilds s.phase := by
  induction h with
  | init => rfl
  | step hr hst ih =>
    cases hst with
    | deliver s m => simpa using ih
    | startBuild m rest a hm =>
      simp only [phaseBuilds] at ih ⊢
      omega
    | skipMsg m rest a hm =>
      simpa [phaseBuilds] using ih
    | finishBuild q a =>
      simp only [phaseBuilds] at ih ⊢
      omega

/-- C5: in every reachable state of the system at most one documentation
build is active — the initial build runs to completion before the watcher
loop exists, and the loop starts each rebuild only after the previous
synchronous `output()` call has returned. -/
theorem c5_at_most_one_build (s : SysState) (h : Reachable s) : s.activeBuilds ≤ 1 := by
  rw [reachable_activeBuilds_eq s h]
  cases s.phase <;> simp [phaseBuilds]

/-- Witness for C5 at the initial state (the initial build in flight). -/
theorem c5_at_most_one_build_witness : initState.activeBuilds ≤ 1 :=
  c5_at_most_one_build initState Reachable.init

/-- A successful find? yields the first element satisfying the
predicate. -/
lemma find?_firstWith {p : Target → Bool} {l : List Target} {t : Target}
    (h : l.find? p = some t) : firstWith p l t := by
  induction l with
  | nil => simp at h
  | cons a rest ih =>
    by_cases hp : p a = true
    · rw [List.find?_cons_of_pos _ hp] at h
      cases h
      exact ⟨hp, [], rest, rfl, by simp⟩
    · rw [List.find?_cons_of_neg _ hp] at h
      obtain ⟨hpt, l₁, l₂, hl, hprev⟩ := ih h
      refine ⟨hpt, a :: l₁, l₂, by rw [hl]; rfl, ?_⟩
      intro u hu
      rcases List.mem_cons.mp hu with rfl | hu
      · simpa using hp
      · exact hprev u hu

/-- C7: selectTarget fails exactly on a package with no targets, and a
selected target is the first library target, or — when no library target
exists — the first binary target, or — when neither exists — the first
declared target.  Immutability after selection is by construction: the
selection is computed once at main.rs:115-120 and the resulting value is
only ever read. -/
theorem c7_documented_unit_selection (ts : List Target) :
    (selectTarget ts = none ↔ ts = [])
    ∧ ∀ t, selectTarget ts = some t →
        firstWith (fun u => u.is_lib) ts t
        ∨ ((∀ u ∈ ts, u.is_lib = false) ∧ firstWith (fun u => u.is_bin) ts t)
        ∨ ((∀ u ∈ ts, u.is_lib = false) ∧ (∀ u ∈ ts, u.is_bin = false)
            ∧ ts.head? = some t) := by
  constructor
  · cases ts with
    | nil => simp [selectTarget]
    | cons a rest =>
      simp only [selectTarget]
      constructor
      · intro h
        cases h1 : (a :: rest).find? fun t => t.is_lib <;>
          cases h2 : (a :: rest).find? fun t => t.is_bin <;>
            simp [h1, h2, Option.or] at h
      · intro h
        cases h
  · intro t ht
    rw [selectTarget] at ht
    cases h1 : ts.find? (fun u => u.is_lib) with
    | some t1 =>
      rw [h1] at ht
      simp only [Option.or, Option.some.injEq] at ht
      subst ht
      exact Or.inl (find?_firstWith h1)
    | none =>
      rw [h1] at ht
      have hnolib : ∀ u ∈ ts, u.is_lib = false := by
        intro u hu
        simpa using List.find?_eq_none.mp h1 u hu
      cases h2 : ts.find? (fun u => u.is_bin) with
      | some t2 =>
        rw [h2] at ht
        simp only [Option.or, Option.some.injEq] at ht
        subst ht
        exact Or.inr (Or.inl ⟨hnolib, find?_firstWith h2⟩)
      | none =>
        rw [h2] at ht
        simp only [Option.or] at ht
        have hnobin : ∀ u ∈ ts, u.is_bin = false := by
          intro u hu
          simpa using List.find?_eq_none.mp h2 u hu
        exact Or.inr (Or.inr ⟨hnolib, hnobin, ht⟩)

/-- Witness for C7 on a package whose first declared target is a binary and
whose second is a library: the library wins. -/
theorem c7_documented_unit_selection_witness :
    firstWith (fun u => u.is_lib)
      [Target.mk "app" false true, Target.mk "mylib" true false]
      (Target.mk "mylib" true false)
    ∨ ((∀ u ∈ [Target.mk "app" false true, Target.mk "mylib" true false],
          u.is_lib = false)
        ∧ firstWith (fun u => u.is_bin)
            [Target.mk "app" false true, Target.mk "mylib" true false]
            (Target.mk "mylib" true false))
    ∨ ((∀ u ∈ [Target.mk "app" false true, Target.mk "mylib" true false],
          u.is_lib = false)
        ∧ (∀ u ∈ [Target.mk "app" false true, Target.mk "mylib" true false],
            u.is_bin = false)
        ∧ [Target.mk "app" false true, Target.mk "mylib" true false].head?
            = some (Target.mk "mylib" true false)) :=
  (c7_documented_unit_selection
    [Target.mk "app" false true, Target.mk "mylib" true false]).2
    (Target.mk "mylib" true false) rfl

/-- C8: a request to `/` is answered with a permanent redirect to
`/<documented-unit-name>/` built from the startup-resolved target name, and
the response is identical at any two rebuild counts: the route's closure
owns only the target resolved once at startup. -/
theorem c8_root_redirect (name : String) (rebuildsA rebuildsB : Nat) :
    handleRequest name rebuildsA "/" = HttpResponse.permanentRedirect ("/" ++ name ++ "/")
    ∧ handleRequest name rebuildsA "/" = handleRequest name rebuildsB "/" := by
  constructor <;> simp [handleRequest]

/-- C9 counterexample: when the very first `cargo doc` cannot be spawned,
the `.expect` at main.rs:134 panics the main task before the server is ever
started — the process aborts instead of starting the server anyway. -/
theorem c9_initial_build_counterexample :
    mainActions (BuildOutcome.spawnFailed ("No such file or directory")) (Except.ok ())
      = [MainAction.getMetadata, MainAction.selectDocTarget, MainAction.runInitialBuild,
          MainAction.panicAbort ("Failed to run `cargo doc`")]
    ∧ MainAction.startServer
        ∉ mainActions (BuildOutcome.spawnFailed ("No such file or directory"))
            (Except.ok ()) :=
  ⟨rfl, by decide⟩

/-- C9 amended: exactly one synchronous initial build happens before the
server is started, and when the generator process runs at all — with any
exit status, failure included, since the Output is discarded — the server
still starts; only an initial build that cannot even be spawned aborts the
process before the server starts. -/
theorem c9_initial_build_then_server (code : Nat) :
    (mainActions (BuildOutcome.completed code) (Except.ok ())).count
        MainAction.runInitialBuild = 1
    ∧ (∃ l₁ l₂ l₃, mainActions (BuildOutcome.completed code) (Except.ok ())
        = l₁ ++ MainAction.runInitialBuild :: (l₂ ++ MainAction.startServer :: l₃))
    ∧ ∀ m : String,
        MainAction.startServer
          ∉ mainActions (BuildOutcome.spawnFailed m) (Except.ok ()) := by
  refine ⟨rfl, ⟨[MainAction.getMetadata, MainAction.selectDocTarget],
    [MainAction.spawnWatcherTask, MainAction.bindListener], [], rfl⟩, ?_⟩
  intro m
  simp [mainActions]

end DocsServer
